import Mathlib

/-!
Verification of the real-time voice-conversation pipeline of the
realtor-dashboard backend (ai-voice-assistant). The Python modules
conversation_manager.py, speech_processing.py, websocket_handler.py and
shared_state.py are shallowly embedded below: Python strings become lists of
characters, per-call mutable state becomes explicit records, and the
concurrent actors (the universal VAD monitor, the TTS worker thread) become
explicit step functions driven by an action schedule. Machine-level details
that the verified properties do not touch (audio byte contents, network and
logging side effects) are abstracted as parameters or dropped, and each
definition notes the source function and lines it embeds.
-/

namespace VoiceAssistant

/-! ## Python string primitives

The source manipulates Python strings with replace, split, strip, lower and
the in operator. We model a Python string as a list of characters and give
each primitive the semantics of the corresponding Python operation (all
patterns used by the source are nonempty, and matching is non-overlapping,
left to right). The fuel argument of the recursive ones equals the string
length, which bounds the number of steps, so the functions are structural
and compute inside the kernel. -/

/-- Shorthand turning a Lean string literal into the character-list model. -/
def str (s : String) : List Char := s.toList

/-- Python whitespace for str.strip and str.split with no argument (ASCII
subset, which covers every string the embedded code builds). -/
def isPySpace (c : Char) : Bool :=
  c = ' ' || c = '\t' || c = '\n' || c = '\r' || c = '\x0b' || c = '\x0c'

/-- Fuel-indexed worker for pyReplace; one unit of fuel is spent per
character of the remaining string, and every recursive call drops at least
one character, so fuel equal to the string length suffices. -/
def pyReplaceAux : Nat → List Char → List Char → List Char → List Char
  | 0, s, _, _ => s
  | _ + 1, [], _, _ => []
  | fuel + 1, c :: rest, old, new =>
    if old ≠ [] ∧ old.isPrefixOf (c :: rest) then
      new ++ pyReplaceAux fuel ((c :: rest).drop old.length) old new
    else
      c :: pyReplaceAux fuel rest old new

/-- Python str.replace(old, new): replace every non-overlapping occurrence of
old, scanning left to right (the source never calls it with an empty old). -/
def pyReplace (s old new : List Char) : List Char :=
  pyReplaceAux s.length s old new

/-- Python substring membership, sub in s, for nonempty sub. -/
def containsSub : List Char → List Char → Bool
  | [], sub => sub.isEmpty
  | c :: rest, sub => sub.isPrefixOf (c :: rest) || containsSub rest sub

/-- Fuel-indexed worker for pySplitOn; cur accumulates the current segment. -/
def pySplitAux : Nat → List Char → List Char → List Char → List (List Char)
  | 0, s, _, cur => [cur ++ s]
  | _ + 1, [], _, cur => [cur]
  | fuel + 1, c :: rest, sep, cur =>
    if sep ≠ [] ∧ sep.isPrefixOf (c :: rest) then
      cur :: pySplitAux fuel ((c :: rest).drop sep.length) sep []
    else
      pySplitAux fuel rest sep (cur ++ [c])

/-- Python str.split(sep) for a nonempty separator. -/
def pySplitOn (s sep : List Char) : List (List Char) :=
  pySplitAux (s.length + 1) s sep []

/-- Python str.strip(): drop leading and trailing whitespace. -/
def pyStrip (s : List Char) : List Char :=
  ((s.dropWhile isPySpace).reverse.dropWhile isPySpace).reverse

/-- ASCII lower-casing of one character (Python str.lower on the ASCII texts
the embedded code produces). -/
def lowerChar (c : Char) : Char :=
  if 'A' ≤ c ∧ c ≤ 'Z' then Char.ofNat (c.toNat + 32) else c

/-- Python str.lower. -/
def pyLower (s : List Char) : List Char := s.map lowerChar

/-- Worker for pyWords: splits on runs of whitespace, cur holds the reversed
current word. -/
def pyWordsAux : List Char → List Char → List (List Char)
  | [], cur => if cur = [] then [] else [cur.reverse]
  | c :: rest, cur =>
    if isPySpace c then
      if cur = [] then pyWordsAux rest []
      else cur.reverse :: pyWordsAux rest []
    else
      pyWordsAux rest (c :: cur)

/-- Python str.split() with no argument: the whitespace-separated words. -/
def pyWords (s : List Char) : List (List Char) := pyWordsAux s []

/-! ### Facts about the string primitives used by the claims -/

/-- Replacing a single character by the empty string removes every
occurrence of it, given enough fuel. -/
theorem not_mem_pyReplaceAux_single (c : Char) :
    ∀ fuel s, s.length ≤ fuel → c ∉ pyReplaceAux fuel s [c] [] := by
  intro fuel
  induction fuel with
  | zero =>
      intro s hs
      have : s = [] := List.length_eq_zero.mp (Nat.le_zero.mp hs)
      subst this
      simp [pyReplaceAux]
  | succ n ih =>
      intro s hs
      match s with
      | [] => simp [pyReplaceAux]
      | a :: rest =>
          have hrest : rest.length ≤ n := by
            simpa using Nat.le_of_succ_le_succ hs
          by_cases hac : a = c
          · subst hac
            simp [pyReplaceAux, List.isPrefixOf]
            exact ih rest hrest
          · have hpre : ([c].isPrefixOf (a :: rest)) = false := by
              simp [List.isPrefixOf]
              exact fun h => absurd h.symm hac
            simp [pyReplaceAux, hpre]
            exact ⟨fun h => absurd h.symm hac, ih rest hrest⟩

/-- Replacing by the empty string only removes characters: every character
of the result was in the input. -/
theorem mem_of_mem_pyReplaceAux_empty (x : Char) (old : List Char) :
    ∀ fuel s, x ∈ pyReplaceAux fuel s old [] → x ∈ s := by
  intro fuel
  induction fuel with
  | zero =>
      intro s h
      rw [pyReplaceAux] at h
      exact h
  | succ n ih =>
      intro s h
      match s with
      | [] => simp [pyReplaceAux] at h
      | a :: rest =>
          by_cases hb : old ≠ [] ∧ old.isPrefixOf (a :: rest)
          · rw [pyReplaceAux, if_pos hb] at h
            simp only [List.nil_append] at h
            exact List.mem_of_mem_drop (ih _ h)
          · rw [pyReplaceAux, if_neg hb] at h
            rcases List.mem_cons.mp h with h | h
            · exact h ▸ List.mem_cons_self a rest
            · exact List.mem_cons_of_mem a (ih rest h)

/-- Character-level reading of pyReplace for the claims below. -/
theorem not_mem_pyReplace_single (c : Char) (s : List Char) :
    c ∉ pyReplace s [c] [] :=
  not_mem_pyReplaceAux_single c s.length s (Nat.le_refl _)

/-- Deleting occurrences of one pattern never introduces characters. -/
theorem mem_of_mem_pyReplace_empty (x : Char) (old : List Char) (s : List Char) :
    x ∈ pyReplace s old [] → x ∈ s :=
  mem_of_mem_pyReplaceAux_empty x old s.length s

/-! ## Voice activity detector

Embedding of WebRTCVADProcessor (speech_processing.py lines 69-126). The
processor keeps a byte buffer and a consecutive-voice-frame counter across
calls; process_audio appends the decoded PCM bytes of the incoming payload,
classifies every complete frame of frameBytes bytes through the external
webrtcvad classifier, and returns the voice_detected value computed after
the last complete frame. The classifier (self.vad.is_speech) and the mu-law
to PCM decoding are external: the classifier is a parameter cls on frame
byte lists, and the function receives the already decoded PCM bytes (the
decode is a byte-for-byte external conversion that the debounce logic never
inspects). Bytes are modelled as Nat. -/

/-- Per-call state of WebRTCVADProcessor: the leftover byte buffer and the
voice_frame_count attribute (initially absent, read as 0). -/
structure VadState where
  buffer : List Nat
  voiceFrameCount : Nat
deriving Repr, DecidableEq

/-- One frame update of the consecutive counter (lines 114-117): a voice
frame increments it, any negative frame resets it to 0. -/
def vadStep (count : Nat) (isVoice : Bool) : Nat :=
  if isVoice then count + 1 else 0

/-- Fuel-indexed worker splitting the buffer into complete frames of n bytes
plus the leftover (the while loop of lines 103-106); fuel bounds the number
of extracted frames. -/
def extractFramesAux : Nat → Nat → List Nat → List (List Nat) × List Nat
  | 0, _, buf => ([], buf)
  | fuel + 1, n, buf =>
    if n ≠ 0 ∧ n ≤ buf.length then
      let tail := extractFramesAux fuel n (buf.drop n)
      (buf.take n :: tail.1, tail.2)
    else ([], buf)

/-- The complete frames of the buffer and the leftover bytes. -/
def extractFrames (n : Nat) (buf : List Nat) : List (List Nat) × List Nat :=
  extractFramesAux buf.length n buf

/-- The frame loop of process_audio (lines 102-120): voice_detected starts
false and is overwritten for every frame with the test counter greater or
equal 3, so the returned flag reflects the last complete frame only. -/
def processFrames (cls : List Nat → Bool) (count : Nat)
    (frames : List (List Nat)) : Nat × Bool :=
  frames.foldl
    (fun acc fr =>
      let c := vadStep acc.1 (cls fr)
      (c, decide (3 ≤ c)))
    (count, false)

/-- WebRTCVADProcessor.process_audio (lines 92-126) on the decoded PCM bytes
of one payload: append to the buffer, classify each complete frame, return
the new state and the voice_detected flag. -/
def processAudio (cls : List Nat → Bool) (frameBytes : Nat)
    (st : VadState) (pcm : List Nat) : VadState × Bool :=
  let buf := st.buffer ++ pcm
  let fr := extractFrames frameBytes buf
  let pd := processFrames cls st.voiceFrameCount fr.1
  (⟨fr.2, pd.1⟩, pd.2)

/-- The counter alone, folded over the frames. -/
def countFold (cls : List Nat → Bool) (count : Nat)
    (frames : List (List Nat)) : Nat :=
  frames.foldl (fun c fr => vadStep c (cls fr)) count

/-- Closed form of the frame fold: the counter folds on its own, and the
detected flag is the initial one when no frame was processed, otherwise the
test that the final counter reached 3. -/
theorem foldl_vad_eq (cls : List Nat → Bool) :
    ∀ frames count b,
      frames.foldl
        (fun acc fr =>
          let c := vadStep acc.1 (cls fr)
          (c, decide (3 ≤ c)))
        (count, b) =
      (countFold cls count frames,
        if frames = [] then b else decide (3 ≤ countFold cls count frames)) := by
  intro frames
  induction frames with
  | nil => intro count b; rfl
  | cons f rest ih =>
      intro count b
      simp only [List.foldl_cons]
      rw [ih]
      rcases rest with _ | ⟨g, rest⟩
      · simp [countFold]
      · simp [countFold]

/-- processFrames in closed form. -/
theorem processFrames_eq (cls : List Nat → Bool) (count : Nat)
    (frames : List (List Nat)) :
    processFrames cls count frames =
      (countFold cls count frames,
        if frames = [] then false
        else decide (3 ≤ countFold cls count frames)) :=
  foldl_vad_eq cls frames count false

/-- C9 — VAD debounce. For every classifier, frame size, processor state and
incoming payload, process_audio returns voice detected exactly when at least
one complete frame was processed in the call and the consecutive-positive
counter stands at 3 or more after the last of those frames; a positive frame
increments the counter and any negative frame resets it to 0. -/
theorem c9_vad_debounce (cls : List Nat → Bool) (frameBytes : Nat)
    (st : VadState) (pcm : List Nat) :
    ((processAudio cls frameBytes st pcm).2 = true ↔
      ((extractFrames frameBytes (st.buffer ++ pcm)).1 ≠ [] ∧
        3 ≤ (processAudio cls frameBytes st pcm).1.voiceFrameCount)) ∧
    (∀ c, vadStep c true = c + 1) ∧ (∀ c, vadStep c false = 0) := by
  refine ⟨?_, fun c => rfl, fun c => rfl⟩
  show (processFrames cls st.voiceFrameCount
      (extractFrames frameBytes (st.buffer ++ pcm)).1).2 = true ↔ _
  rw [processFrames_eq]
  rcases h : (extractFrames frameBytes (st.buffer ++ pcm)).1 with _ | ⟨f, fs⟩
  · simp
  · simp [processAudio, processFrames_eq, h]

/-! ## Extracted-data normalization

Embedding of clean_extracted_data (conversation_manager.py lines 221-274).
The extracted mapping is a Python dict of string keys and string values
(the JSON block the oracle emits); we model it as an association list in
insertion order, with lookup returning the first binding and assignment
updating in place or appending, exactly as a dict behaves. -/

/-- Lookup in the association-list model of a Python dict. -/
def dictGet : List (List Char × List Char) → List Char → Option (List Char)
  | [], _ => none
  | (k0, v0) :: rest, k => if k0 = k then some v0 else dictGet rest k

/-- Python key-membership test, k in d. -/
def dictHas (m : List (List Char × List Char)) (k : List Char) : Bool :=
  (dictGet m k).isSome

/-- Python dict assignment d[k] = v: overwrite in place, append when new. -/
def dictSet : List (List Char × List Char) → List Char → List Char →
    List (List Char × List Char)
  | [], k, v => [(k, v)]
  | (k0, v0) :: rest, k, v =>
    if k0 = k then (k0, v) :: rest else (k0, v0) :: dictSet rest k v

/-- Python truthiness of d.get(k): false for a missing key and for the
empty string. -/
def pyTruthy : Option (List Char) → Bool
  | none => false
  | some s => !s.isEmpty

/-- Name cleaning (line 233): remove dashes, then spaces. -/
def cleanNameVal (v : List Char) : List Char :=
  pyReplace (pyReplace v (str "-") []) (str " ") []

/-- The email-cleaning steps of lines 240-254, before the final space
removal: spell-out replacements of at and dot, then the fallback splits on
a bare at (when no @ resulted) and on a bare dot. -/
def emailCore (v : List Char) : List Char :=
  let c := pyReplace v (str " at ") (str "@")
  let c := pyReplace c (str " dot ") (str ".")
  let c := pyReplace c (str " AT ") (str "@")
  let c := pyReplace c (str " DOT ") (str ".")
  let c := pyReplace c (str "at ") (str "@")
  let c := pyReplace c (str "dot ") (str ".")
  let c := pyReplace c (str " at") (str "@")
  let c := pyReplace c (str " dot") (str ".")
  let c :=
    if containsSub c (str "@") = false ∧ containsSub c (str "at") = true then
      let parts := pySplitOn c (str "at")
      if parts.length = 2 then
        parts.headD [] ++ str "@" ++ (parts.getD 1 [])
      else c
    else c
  if containsSub c (str "dot") = true then
    List.intercalate (str ".") (pySplitOn c (str "dot"))
  else c

/-- Email cleaning (lines 240-257): the core steps, then remove all
spaces. -/
def cleanEmailVal (v : List Char) : List Char :=
  pyReplace (emailCore v) (str " ") []

/-- Per-key cleaning of the loop in lines 230-262: names lose dashes and
spaces, the email is normalized, every other field passes through. -/
def cleanField (k v : List Char) : List Char :=
  if k = str "first_name" ∨ k = str "last_name" then cleanNameVal v
  else if k = str "email" then cleanEmailVal v
  else v

/-- The cleaned_data dict after the loop, before the name combination. -/
def cleanedPairs (data : List (List Char × List Char)) :
    List (List Char × List Char) :=
  data.map (fun p => (p.1, cleanField p.1 p.2))

/-- clean_extracted_data (lines 221-274): clean every field, then combine
first_name and last_name into name (an f-string joined by one space and
stripped), falling back to whichever part exists when name is missing or
empty. -/
def cleanExtractedData (data : List (List Char × List Char)) :
    List (List Char × List Char) :=
  let cleaned := cleanedPairs data
  if dictHas cleaned (str "first_name") ∧ dictHas cleaned (str "last_name") then
    dictSet cleaned (str "name")
      (pyStrip ((dictGet cleaned (str "first_name")).getD [] ++ str " " ++
        (dictGet cleaned (str "last_name")).getD []))
  else if dictHas cleaned (str "first_name") ∧
      pyTruthy (dictGet cleaned (str "name")) = false then
    dictSet cleaned (str "name") ((dictGet cleaned (str "first_name")).getD [])
  else if dictHas cleaned (str "last_name") ∧
      pyTruthy (dictGet cleaned (str "name")) = false then
    dictSet cleaned (str "name") ((dictGet cleaned (str "last_name")).getD [])
  else cleaned

/-- Updating one key leaves lookups of other keys unchanged. -/
theorem dictGet_dictSet_ne (k k2 v : List Char) (h : k ≠ k2) :
    ∀ m, dictGet (dictSet m k v) k2 = dictGet m k2 := by
  intro m
  induction m with
  | nil => simp [dictSet, dictGet, h]
  | cons p rest ih =>
      obtain ⟨k0, v0⟩ := p
      by_cases hk : k0 = k
      · subst hk
        simp [dictSet, dictGet, h]
      · simp [dictSet, dictGet, hk, ih]

/-- Lookup after assignment of the same key. -/
theorem dictGet_dictSet_self (k v : List Char) :
    ∀ m, dictGet (dictSet m k v) k = some v := by
  intro m
  induction m with
  | nil => simp [dictSet, dictGet]
  | cons p rest ih =>
      obtain ⟨k0, v0⟩ := p
      by_cases hk : k0 = k
      · subst hk
        simp [dictSet, dictGet]
      · simp [dictSet, dictGet, hk, ih]

/-- Lookup in the cleaned pairs is the cleaned lookup. -/
theorem dictGet_cleanedPairs (k : List Char) :
    ∀ data, dictGet (cleanedPairs data) k =
      (dictGet data k).map (cleanField k) := by
  intro data
  induction data with
  | nil => simp [cleanedPairs, dictGet]
  | cons p rest ih =>
      obtain ⟨k0, v0⟩ := p
      by_cases hk : k0 = k
      · subst hk
        simp [cleanedPairs, dictGet]
      · simpa [cleanedPairs, dictGet, hk] using ih

/-- Keys other than name read through clean_extracted_data to the cleaned
field value. -/
theorem dictGet_cleanExtractedData_ne (k : List Char) (h : str "name" ≠ k) :
    ∀ data, dictGet (cleanExtractedData data) k =
      (dictGet data k).map (cleanField k) := by
  intro data
  rw [cleanExtractedData]
  split_ifs <;>
    simp [dictGet_dictSet_ne _ _ _ h, dictGet_cleanedPairs]

/-- The one-character patterns used by the name cleaning. -/
theorem str_space_eq : str " " = [' '] := rfl

/-- The dash pattern as a singleton character list. -/
theorem str_dash_eq : str "-" = ['-'] := rfl

/-- Cleaned name values contain neither spaces nor dashes. -/
theorem cleanNameVal_no_space_dash (v : List Char) :
    ' ' ∉ cleanNameVal v ∧ '-' ∉ cleanNameVal v := by
  constructor
  · rw [cleanNameVal, str_space_eq]
    exact not_mem_pyReplace_single ' ' _
  · intro hmem
    rw [cleanNameVal, str_space_eq, str_dash_eq] at hmem
    exact not_mem_pyReplace_single '-' v
      (mem_of_mem_pyReplace_empty '-' [' '] _ hmem)

/-- Reading the per-key cleaner at the three special keys. -/
theorem cleanField_first (v : List Char) :
    cleanField (str "first_name") v = cleanNameVal v := by
  rw [cleanField, if_pos (Or.inl rfl)]

/-- Per-key cleaner at last_name. -/
theorem cleanField_last (v : List Char) :
    cleanField (str "last_name") v = cleanNameVal v := by
  rw [cleanField, if_pos (Or.inr rfl)]

/-- Per-key cleaner at email. -/
theorem cleanField_email (v : List Char) :
    cleanField (str "email") v = cleanEmailVal v := by
  rw [cleanField, if_neg (by decide), if_pos rfl]

/-- C10 — extracted-data normalization, amended. For every extracted
mapping: the returned first_name and last_name contain no space and no dash;
the returned email contains no space; and when both first_name and last_name
are present, the returned name is the cleaned first_name, one space, and the
cleaned last_name, stripped of leading and trailing whitespace (the strip is
the amendment: the source builds the name with str.strip, so when a cleaned
part is empty or has whitespace at its edge the bare concatenation
differs). -/
theorem c10_clean_extracted_data (data : List (List Char × List Char)) :
    (∀ v, dictGet (cleanExtractedData data) (str "first_name") = some v →
      ' ' ∉ v ∧ '-' ∉ v) ∧
    (∀ v, dictGet (cleanExtractedData data) (str "last_name") = some v →
      ' ' ∉ v ∧ '-' ∉ v) ∧
    (∀ v, dictGet (cleanExtractedData data) (str "email") = some v →
      ' ' ∉ v) ∧
    (∀ f l, dictGet data (str "first_name") = some f →
      dictGet data (str "last_name") = some l →
      dictGet (cleanExtractedData data) (str "name") =
        some (pyStrip (cleanNameVal f ++ str " " ++ cleanNameVal l))) := by
  refine ⟨?_, ?_, ?_, ?_⟩
  · intro v hv
    rw [dictGet_cleanExtractedData_ne _ (by decide)] at hv
    rcases hd : dictGet data (str "first_name") with _ | orig
    · rw [hd] at hv; simp at hv
    · rw [hd] at hv
      simp only [Option.map_some', Option.some.injEq] at hv
      rw [← hv, cleanField_first]
      exact cleanNameVal_no_space_dash orig
  · intro v hv
    rw [dictGet_cleanExtractedData_ne _ (by decide)] at hv
    rcases hd : dictGet data (str "last_name") with _ | orig
    · rw [hd] at hv; simp at hv
    · rw [hd] at hv
      simp only [Option.map_some', Option.some.injEq] at hv
      rw [← hv, cleanField_last]
      exact cleanNameVal_no_space_dash orig
  · intro v hv
    rw [dictGet_cleanExtractedData_ne _ (by decide)] at hv
    rcases hd : dictGet data (str "email") with _ | orig
    · rw [hd] at hv; simp at hv
    · rw [hd] at hv
      simp only [Option.map_some', Option.some.injEq] at hv
      rw [← hv, cleanField_email, cleanEmailVal, str_space_eq]
      exact not_mem_pyReplace_single ' ' _
  · intro f l hf hl
    have hc1 : dictGet (cleanedPairs data) (str "first_name") =
        some (cleanNameVal f) := by
      rw [dictGet_cleanedPairs, hf, Option.map_some', cleanField_first]
    have hc2 : dictGet (cleanedPairs data) (str "last_name") =
        some (cleanNameVal l) := by
      rw [dictGet_cleanedPairs, hl, Option.map_some', cleanField_last]
    have hcond : dictHas (cleanedPairs data) (str "first_name") ∧
        dictHas (cleanedPairs data) (str "last_name") := by
      constructor <;> simp [dictHas, hc1, hc2]
    rw [cleanExtractedData]
    simp only [if_pos hcond]
    rw [dictGet_dictSet_self, hc1, hc2]
    rfl

/-- C10 counterexample to the claim as stated: with first_name a bare dash
and last_name x, the cleaned first_name is empty, so the strip makes the
returned name differ from cleaned first_name, a space, and cleaned
last_name (which would keep the leading space). -/
theorem c10_counterexample :
    ¬ (dictGet
        (cleanExtractedData
          [(str "first_name", str "-"), (str "last_name", str "x")])
        (str "name") =
      some (cleanNameVal (str "-") ++ str " " ++ cleanNameVal (str "x"))) := by
  decide

/-! ## Conversation mode flags

Embedding of the mode-transition tail of manage_conversation
(conversation_manager.py lines 343-432). The function lower-cases the reply
text shown to the user and then mutates the spelling and assistance flags of
the shared state by substring matching. The spelling chain is an if/elif
ladder; the assistance check is a separate if that runs afterwards. -/

/-- The spelling and assistance flags of SharedState (shared_state.py lines
49-50 and 289-295): spelling_mode, spelling_type and assistance_mode. -/
structure ModeState where
  spellingMode : Bool
  spellingType : Option (List Char)
  assistanceMode : Bool
deriving Repr, DecidableEq

/-- Name-collection trigger (line 345). -/
def nameCond (r : List Char) : Bool :=
  containsSub r (str "can i get your full name") ||
  containsSub r (str "what's your name") ||
  containsSub r (str "first name") ||
  containsSub r (str "last name")

/-- Email-spelling trigger (lines 350-352). -/
def emailCond (r : List Char) : Bool :=
  (containsSub r (str "email") || containsSub r (str "@")) &&
  (containsSub r (str "spell") || containsSub r (str "spelling") ||
    containsSub r (str "could you spell") || containsSub r (str "spell that"))

/-- Phone-spelling trigger (lines 356-359). -/
def phoneCond (r : List Char) : Bool :=
  [str "phone number", str "best phone number", str "reach you at",
    str "call you at", str "phone", str "number to reach",
    str "number to contact"].any (fun p => containsSub r p)

/-- Spelling-mode exit trigger (lines 363-365). -/
def spellingExitCond (r : List Char) : Bool :=
  containsSub r (str "thank you") && containsSub r (str "got it") &&
  !(containsSub r (str "spell") || containsSub r (str "spelling"))

/-- The assistance phrase table (lines 372-420), element for element. The
element joining could you provide more information with the next line
reproduces an adjacent-string concatenation in the source (a missing comma
after could you provide more information), and the two phrases containing a
capital I are kept verbatim even though the matched text is lower-cased. -/
def assistancePhrases : List (List Char) :=
  [str "is there anything specific you'd like me to include",
   str "is there anything else",
   str "is there anything specific",
   str "can you tell me a little more",
   str "can you tell me more",
   str "could you share more",
   str "could you give me more information about what's happening",
   str "could you give me more information about",
   str "could you provide more details",
   str "could you provide more informationgive me more information about what's happening",
   str "give me more information about",
   str "more information about what's happening",
   str "tell me more about what's happening",
   str "could you tell me more about what's happening",
   str "can you give me more details about what's happening",
   str "can you tell me more about what's happening",
   str "anything specific you'd like me to mention",
   str "would you like me to include any other details",
   str "anything else you'd like me to mention",
   str "any other details you want me to pass along",
   str "anything else I should tell them",
   str "any specific requirements you'd like me to note",
   str "what else would you like me to add",
   str "any additional information you want included",
   str "any particular details that are important",
   str "to include in my message to",
   str "regarding your request about",
   str "regarding your inquiry",
   str "regarding your request",
   str "what message would you like me to pass along",
   str "message you'd like me to deliver",
   str "regarding your inquiry about",
   str "regarding your question about spectrometers",
   str "specifics of your request",
   str "details of your inquiry",
   str "what specific information are you looking for",
   str "what information are you looking for",
   str "what details are you looking for",
   str "what exactly are you interested in",
   str "what are you specifically looking for",
   str "what would you like to know about",
   str "how can I help with your request",
   str "more details about your needs",
   str "what are your requirements"]

/-- Assistance trigger (line 423). -/
def assistCond (r : List Char) : Bool :=
  assistancePhrases.any (fun p => containsSub r p)

/-- Mode transitions of manage_conversation (lines 343-432): lower-case the
user-visible reply, run the spelling if/elif ladder, then the separate
assistance check, which clears spelling (and its type) before setting
assistance. -/
def updateModes (resp : List Char) (st : ModeState) : ModeState :=
  let r := pyLower resp
  let st1 :=
    if nameCond r then
      ⟨true, some (str "name_collection"), false⟩
    else if emailCond r then
      { st with spellingMode := true, spellingType := some (str "email") }
    else if phoneCond r then
      { st with spellingMode := true, spellingType := some (str "phone") }
    else if spellingExitCond r then
      { st with spellingMode := false, spellingType := none }
    else st
  if assistCond r then
    { spellingMode := false,
      spellingType := if st1.spellingMode then none else st1.spellingType,
      assistanceMode := true }
  else st1

/-- The initial flags of a fresh SharedState (lines 49-50). -/
def initModeState : ModeState := ⟨false, none, false⟩

/-- C1 counterexample. The claimed invariant that at most one of
spellingMode and assistanceMode holds fails on a reachable state: a reply
that requests elaboration enters assistance mode, and a follow-up reply that
asks to spell the email enters spelling mode without clearing the assistance
flag, leaving both flags true. -/
theorem c1_counterexample :
    ((updateModes (str "Could you spell your email address for me?")
        (updateModes (str "Is there anything else I can help with?")
          initModeState)).spellingMode = true) ∧
    ((updateModes (str "Could you spell your email address for me?")
        (updateModes (str "Is there anything else I can help with?")
          initModeState)).assistanceMode = true) := by
  decide

/-- C1 — mode transitions, amended. For every reply and state: an
assistance-triggering reply always leaves spelling off and assistance on; a
name-collection reply with no assistance trigger sets exactly the spelling
flags and clears assistance; but an email or phone spelling entry with no
assistance trigger sets the spelling flags while leaving assistanceMode
unchanged, so it does not clear the other mode. -/
theorem c1_mode_transitions (resp : List Char) (st : ModeState) :
    (assistCond (pyLower resp) = true →
      (updateModes resp st).spellingMode = false ∧
      (updateModes resp st).assistanceMode = true) ∧
    (nameCond (pyLower resp) = true → assistCond (pyLower resp) = false →
      updateModes resp st = ⟨true, some (str "name_collection"), false⟩) ∧
    (nameCond (pyLower resp) = false → emailCond (pyLower resp) = true →
      assistCond (pyLower resp) = false →
      updateModes resp st =
        { st with spellingMode := true, spellingType := some (str "email") }) ∧
    (nameCond (pyLower resp) = false → emailCond (pyLower resp) = false →
      phoneCond (pyLower resp) = true → assistCond (pyLower resp) = false →
      updateModes resp st =
        { st with spellingMode := true, spellingType := some (str "phone") }) := by
  refine ⟨?_, ?_, ?_, ?_⟩
  · intro ha
    simp [updateModes, ha]
  · intro hn ha
    simp [updateModes, hn, ha]
  · intro hn he ha
    simp [updateModes, hn, he, ha]
  · intro hn he hp ha
    simp [updateModes, hn, he, hp, ha]

/-- C1 witness: the amended theorem applied at a concrete reply and state,
with all hypotheses discharged by computation. -/
theorem c1_mode_transitions_witness :
    updateModes (str "Could you spell your email address for me?")
        ⟨false, none, true⟩ =
      { spellingMode := true, spellingType := some (str "email"),
        assistanceMode := true } :=
  (c1_mode_transitions (str "Could you spell your email address for me?")
      ⟨false, none, true⟩).2.2.1 (by decide) (by decide) (by decide)

/-! ## Barge-in, interruption and the TTS worker

Joint embedding of the interrupt branch of
SpeechClientBridge.process_universal_vad (speech_processing.py lines
195-218), the Google branch of text_to_speech (lines 445-531) and the
tts_worker thread around it (websocket_handler.py lines 240-267). The
concurrent interleaving of the VAD monitor (driven by inbound media frames)
and the worker thread is modelled as a list of actions, each action an
atomic block of one thread: a vad action is one process_universal_vad call
observing a voice decision at a time, and a work action advances the worker
by one step (the start of text_to_speech, one chunk-loop iteration, or the
grace loop plus the final flag clear). Events record what the outside world
sees: transport media and clear messages, writes to the aiSpeaking flag and
sleeps (milliseconds). Times in vad actions are in seconds, matching the
2-second interrupt cooldown of the source. -/

/-- Observable events of the pipeline. -/
inductive Ev where
  | media : Ev
  | clear : Ev
  | speak : Bool → Ev
  | sleepMs : Nat → Ev
deriving Repr, DecidableEq

/-- Position of the worker thread: before text_to_speech, inside the Google
chunk loop, after text_to_speech returned (about to run the grace loop and
the final clear), or finished. -/
inductive Phase where
  | start | chunkLoop | grace | done
deriving Repr, DecidableEq

/-- The per-call flags the two threads share (shared_state.py interrupt_ai,
ai_is_speaking, clear_command_sent) plus the VAD cooldown clock
(last_vad_interrupt_time of the bridge), the number of unsent chunks of the
current utterance and the worker phase. -/
structure CallState where
  interruptAi : Bool
  aiSpeaking : Bool
  clearCommandSent : Bool
  lastVadTime : Nat
  chunksLeft : Nat
  phase : Phase
deriving Repr, DecidableEq

/-- Interrupt branch of process_universal_vad (lines 196-218): only when the
AI is speaking, voice is detected, no interrupt is already pending and the
2-second cooldown has elapsed does it set the interrupt flag, stamp the
cooldown clock, send one clear message and mark clear_command_sent. The
stream sid is assumed assigned (media is flowing when the monitor runs);
the turn-taking branch taken when the AI is silent touches only the
user-speaking flags and silence timer, which this projection does not
carry, so it is the identity here. -/
def stepVad (st : CallState) (voice : Bool) (now : Nat) : CallState × List Ev :=
  if st.aiSpeaking then
    if voice && !st.interruptAi then
      if now - st.lastVadTime > 2 then
        ({ st with
            interruptAi := true
            lastVadTime := now
            clearCommandSent := true }, [Ev.clear])
      else (st, [])
    else (st, [])
  else (st, [])

/-- One step of the worker thread. Phase start is the head of text_to_speech
(lines 447-462): unconditionally clear the interrupt flag and set aiSpeaking
true before any audio is sent (the flag is written twice, once by the
failsafe and once by the Google branch). Phase chunkLoop is one iteration of
the chunk loop (lines 488-523): a pending interrupt sends a clear message,
clears aiSpeaking and aborts the utterance; otherwise, with chunks left, one
media message and the 15 ms pacing sleep; with none left, the normal
completion of lines 529-531, which clears aiSpeaking at once. Phase grace is
the code after text_to_speech returns in tts_worker (lines 253-267): the 200
ms grace wait, skipped when an interrupt is already pending, then the
unconditional second clear of aiSpeaking in the finally block. -/
def stepWork (st : CallState) : CallState × List Ev :=
  match st.phase with
  | Phase.start =>
      ({ st with
          interruptAi := false
          aiSpeaking := true
          phase := Phase.chunkLoop },
        [Ev.speak true, Ev.speak true])
  | Phase.chunkLoop =>
      if st.interruptAi then
        ({ st with aiSpeaking := false, phase := Phase.grace },
          [Ev.clear, Ev.speak false])
      else if st.chunksLeft = 0 then
        ({ st with aiSpeaking := false, phase := Phase.grace },
          [Ev.speak false])
      else
        ({ st with chunksLeft := st.chunksLeft - 1 },
          [Ev.media, Ev.sleepMs 15])
  | Phase.grace =>
      if st.interruptAi then
        ({ st with aiSpeaking := false, phase := Phase.done },
          [Ev.speak false])
      else
        ({ st with aiSpeaking := false, phase := Phase.done },
          [Ev.sleepMs 200, Ev.speak false])
  | Phase.done => (st, [])

/-- One scheduled action: a process_universal_vad call with its voice
decision and time, or one worker step. -/
inductive Act where
  | vad : Bool → Nat → Act
  | work : Act
deriving Repr, DecidableEq

/-- Run a schedule of interleaved actions, concatenating the events. -/
def runCall : List Act → CallState → CallState × List Ev
  | [], st => (st, [])
  | a :: rest, st =>
      let step := match a with
        | Act.vad v n => stepVad st v n
        | Act.work => stepWork st
      let tail := runCall rest step.1
      (tail.1, step.2 ++ tail.2)

/-- State at the moment process_transcription has spawned the worker for a
fresh utterance (websocket_handler.py lines 233-237 run interrupt := false,
clear_command_sent := false, aiSpeaking := true just before the thread
starts): the worker is in phase start with the chunks of this utterance
pending; the cooldown clock survives from earlier utterances. -/
def utteranceStart (chunks lastVad : Nat) : CallState :=
  ⟨false, true, false, lastVad, chunks, Phase.start⟩

/-- Number of clear messages in an event list. -/
def countClear (evs : List Ev) : Nat := evs.count Ev.clear

/-- How many clear messages the rest of a run can still emit: one from the
VAD monitor while the interrupt flag is down, and one from the chunk loop
while the worker is still in it. -/
def clearPot (st : CallState) : Nat :=
  (if st.interruptAi then 0 else 1) +
  (if st.phase = Phase.chunkLoop then 1 else 0)

/-- A worker step never moves back to phase start. -/
theorem stepWork_phase_ne_start (st : CallState) :
    (stepWork st).1.phase ≠ Phase.start := by
  rcases st with ⟨i, a, c, l, k, p⟩
  cases p <;> simp [stepWork] <;> split_ifs <;> simp

/-- A VAD step leaves the phase unchanged. -/
theorem stepVad_phase (st : CallState) (v : Bool) (n : Nat) :
    (stepVad st v n).1.phase = st.phase := by
  rw [stepVad]
  split_ifs <;> rfl

/-- One VAD step emits clear messages only against the potential: a clear
comes with the interrupt flag going up. -/
theorem stepVad_bound (st : CallState) (v : Bool) (n : Nat) :
    countClear (stepVad st v n).2 + clearPot (stepVad st v n).1 ≤
      clearPot st := by
  rcases st with ⟨i, a, c, l, k, p⟩
  rw [stepVad]
  cases a <;> cases v <;> cases i <;>
    simp [clearPot, countClear] <;> split_ifs <;>
    simp_all [clearPot, countClear]

/-- One worker step past phase start emits clear messages only against the
potential: the chunk-loop clear comes with the worker leaving the loop. -/
theorem stepWork_bound (st : CallState) (h : st.phase ≠ Phase.start) :
    countClear (stepWork st).2 + clearPot (stepWork st).1 ≤ clearPot st := by
  rcases st with ⟨i, a, c, l, k, p⟩
  cases p with
  | start => exact absurd rfl h
  | chunkLoop =>
      cases i <;> simp [stepWork, clearPot, countClear] <;> split_ifs <;>
        simp [clearPot, countClear]
  | grace =>
      cases i <;> simp [stepWork, clearPot, countClear]
  | done => simp [stepWork, clearPot, countClear]

/-- Once the worker has left phase start, a run emits at most clearPot many
clear messages: the VAD sends at most one clear before the interrupt flag
goes up (and nothing resets the flag after phase start), and the chunk loop
sends at most one clear before leaving the loop. -/
theorem countClear_runCall_le :
    ∀ acts st, st.phase ≠ Phase.start →
      countClear (runCall acts st).2 ≤ clearPot st := by
  intro acts
  induction acts with
  | nil =>
      intro st _
      simp [runCall, countClear]
  | cons a rest ih =>
      intro st hst
      rcases a with ⟨v, n⟩ | _
      · have h1 := stepVad_bound st v n
        have h2 := ih (stepVad st v n).1
          (by rw [stepVad_phase]; exact hst)
        have hsplit : countClear (runCall (Act.vad v n :: rest) st).2 =
            countClear (stepVad st v n).2 +
            countClear (runCall rest (stepVad st v n).1).2 := by
          simp [runCall, countClear, List.count_append]
        omega
      · have h1 := stepWork_bound st hst
        have h2 := ih (stepWork st).1 (stepWork_phase_ne_start st)
        have hsplit : countClear (runCall (Act.work :: rest) st).2 =
            countClear (stepWork st).2 +
            countClear (runCall rest (stepWork st).1).2 := by
          simp [runCall, countClear, List.count_append]
        omega

/-- C2 counterexample. One utterance of three chunks, interrupted once by
the VAD after the first chunk: the VAD monitor sends a clear message when it
raises the interrupt flag, and the Google chunk loop, which never consults
clear_command_sent, sends a second clear when it observes the flag — two
clear messages on the transport for a single interrupted utterance, not
one. -/
theorem c2_counterexample :
    countClear (runCall [Act.work, Act.work, Act.vad true 10, Act.work]
      (utteranceStart 3 0)).2 = 2 := by
  decide

/-- C2 — clear-message idempotence, amended. For every schedule that begins
with the worker start step, at most two clear messages are sent for the
utterance: the VAD monitor sends at most one (guarded by the interrupt
flag), and the Google chunk loop sends at most one more when it observes the
interrupt, because it does not consult the clear_command_sent idempotency
flag; an utterance interrupted through the VAD during Google streaming thus
receives exactly two clears. -/
theorem c2_clear_bound (rest : List Act) (chunks lastVad : Nat) :
    countClear (runCall (Act.work :: rest)
      (utteranceStart chunks lastVad)).2 ≤ 2 := by
  have hstep : stepWork (utteranceStart chunks lastVad) =
      (⟨false, true, false, lastVad, chunks, Phase.chunkLoop⟩,
        [Ev.speak true, Ev.speak true]) := rfl
  have hsplit : countClear (runCall (Act.work :: rest)
      (utteranceStart chunks lastVad)).2 =
      countClear (stepWork (utteranceStart chunks lastVad)).2 +
      countClear (runCall rest
        (stepWork (utteranceStart chunks lastVad)).1).2 := by
    simp [runCall, countClear, List.count_append]
  have hbound := countClear_runCall_le rest
    (⟨false, true, false, lastVad, chunks, Phase.chunkLoop⟩ : CallState)
    (by simp)
  rw [hsplit, hstep]
  simp only [countClear, clearPot] at *
  simp at hbound ⊢
  omega

/-- C4 — fresh-utterance interrupt reset. Whatever the flags were when the
worker reaches the start of text_to_speech, the start step unconditionally
clears the interrupt flag and sets aiSpeaking, and it emits no media and no
clear message, so every new synthesis utterance begins with
interruptRequested false — not only the first utterance of the call. -/
theorem c4_fresh_utterance_reset (st : CallState)
    (h : st.phase = Phase.start) :
    (stepWork st).1.interruptAi = false ∧
    (stepWork st).1.aiSpeaking = true ∧
    ∀ e ∈ (stepWork st).2, e ≠ Ev.media ∧ e ≠ Ev.clear := by
  rcases st with ⟨i, a, c, l, k, p⟩
  cases p with
  | start => simp [stepWork]
  | chunkLoop => exact absurd h (by simp)
  | grace => exact absurd h (by simp)
  | done => exact absurd h (by simp)

/-- C4 witness: the reset theorem applied to a state with stale flags
(interrupt pending, clear already sent) about to start a new utterance. -/
theorem c4_fresh_utterance_reset_witness :
    (stepWork ⟨true, false, true, 7, 2, Phase.start⟩).1.interruptAi = false ∧
    (stepWork ⟨true, false, true, 7, 2, Phase.start⟩).1.aiSpeaking = true ∧
    ∀ e ∈ (stepWork ⟨true, false, true, 7, 2, Phase.start⟩).2,
      e ≠ Ev.media ∧ e ≠ Ev.clear :=
  c4_fresh_utterance_reset ⟨true, false, true, 7, 2, Phase.start⟩ rfl

/-- Unfolding of one worker action at the head of a schedule. -/
theorem runCall_cons_work (rest : List Act) (st : CallState) :
    runCall (Act.work :: rest) st =
      ((runCall rest (stepWork st).1).1,
        (stepWork st).2 ++ (runCall rest (stepWork st).1).2) := rfl

/-- Closed form of an uninterrupted worker run past the start step: n chunk
iterations each sending one media message and sleeping 15 ms, then the
normal completion which clears aiSpeaking at once, then the 200 ms grace
sleep and the second clear of aiSpeaking. -/
theorem runWork_noInterrupt (ccs : Bool) (lv : Nat) :
    ∀ n, runCall (List.replicate (n + 2) Act.work)
      ⟨false, true, ccs, lv, n, Phase.chunkLoop⟩ =
    (⟨false, false, ccs, lv, 0, Phase.done⟩,
      (List.replicate n [Ev.media, Ev.sleepMs 15]).flatten ++
        [Ev.speak false, Ev.sleepMs 200, Ev.speak false]) := by
  intro n
  induction n with
  | zero => rfl
  | succ m ih =>
      have hrep : List.replicate (m + 1 + 2) Act.work =
          Act.work :: List.replicate (m + 2) Act.work := rfl
      have hstep : stepWork ⟨false, true, ccs, lv, m + 1, Phase.chunkLoop⟩ =
          (⟨false, true, ccs, lv, m, Phase.chunkLoop⟩,
            [Ev.media, Ev.sleepMs 15]) := rfl
      rw [hrep, runCall_cons_work, hstep]
      simp only [ih]
      simp [List.replicate_succ]

/-- Milliseconds of sleep before the first write of false to aiSpeaking in
an event list, none when no such write occurs. -/
def msBeforeSpeakFalse : List Ev → Option Nat
  | [] => none
  | Ev.speak false :: _ => some 0
  | Ev.sleepMs d :: rest => (msBeforeSpeakFalse rest).map (d + ·)
  | Ev.media :: rest => msBeforeSpeakFalse rest
  | Ev.clear :: rest => msBeforeSpeakFalse rest
  | Ev.speak true :: rest => msBeforeSpeakFalse rest

/-- The events after the last media message. -/
def afterLastMedia (evs : List Ev) : List Ev :=
  (evs.reverse.takeWhile (fun e => e ≠ Ev.media)).reverse

/-- C5 counterexample. A one-chunk utterance completing normally with no
interruption: after the last media chunk, aiSpeaking is written false only
15 ms later (the pacing sleep), not after a 200 ms grace period — the 200 ms
grace sleep happens after that write and only precedes the redundant second
write of false. -/
theorem c5_counterexample :
    msBeforeSpeakFalse (afterLastMedia
      (runCall (List.replicate 4 Act.work) (utteranceStart 1 0)).2) =
      some 15 ∧ 15 < 200 := by
  decide

/-- C5 — trailing grace period, amended. For every utterance that completes
normally on the Google TTS path, the full event trace is: the two start
writes of aiSpeaking true, the chunk messages each followed by the 15 ms
pacing sleep, then an immediate write of aiSpeaking false at completion,
then the 200 ms grace sleep and a second write of false. aiSpeaking does
not remain true through the grace period: it is cleared as soon as the last
chunk is sent, and the grace sleep precedes only the redundant second
clear. -/
theorem c5_grace_period (chunks lastVad : Nat) :
    (runCall (List.replicate (chunks + 3) Act.work)
      (utteranceStart chunks lastVad)).2 =
    [Ev.speak true, Ev.speak true] ++
      (List.replicate chunks [Ev.media, Ev.sleepMs 15]).flatten ++
      [Ev.speak false, Ev.sleepMs 200, Ev.speak false] := by
  have hrep : List.replicate (chunks + 3) Act.work =
      Act.work :: List.replicate (chunks + 2) Act.work := rfl
  have hstep : stepWork (utteranceStart chunks lastVad) =
      (⟨false, true, false, lastVad, chunks, Phase.chunkLoop⟩,
        [Ev.speak true, Ev.speak true]) := rfl
  rw [hrep, runCall_cons_work, hstep]
  simp only [runWork_noInterrupt false lastVad chunks]
  simp

/-! ## Session-restart frame routing

Embedding of the queue discipline of SpeechClientBridge.add_request
(speech_processing.py lines 319-331) and one batch of
SpeechClientBridge.generator (lines 372-396). A frame is a Nat identifier;
both self.queue (the queue the original session drains) and the
audio_buffer side queue are FIFO lists. add_request always enqueues the
frame to the main queue, and additionally to the side buffer while
restart_in_progress; one generator batch in buffer mode takes its first
chunk from the side buffer but drains the rest of the batch from the main
queue (the inner loop of lines 387-395 reads self.queue regardless of
use_buffer), and in buffer mode with an empty side buffer and the restart
over it falls through to a main-queue batch (the recursive call of line
380, inlined here). -/

/-- The two frame queues of a bridge and the restart flag. -/
structure BridgeQ where
  mainQueue : List Nat
  sideBuffer : List Nat
  restartInProgress : Bool
deriving Repr, DecidableEq

/-- add_request (lines 319-331) without the VAD fan-out: buffer into the
side queue while a restart is in progress, and always into the main
queue. -/
def addRequest (st : BridgeQ) (f : Nat) : BridgeQ :=
  let st1 :=
    if st.restartInProgress then
      { st with sideBuffer := st.sideBuffer ++ [f] }
    else st
  { st1 with mainQueue := st1.mainQueue ++ [f] }

/-- One yielded batch of generator (lines 372-396). The first chunk comes
from the side buffer when use_buffer is set (otherwise from the main
queue); the non-blocking inner loop then empties the main queue into the
same batch in either mode. none models a get timeout with nothing to
yield. -/
def generatorBatch (useBuffer : Bool) (st : BridgeQ) :
    Option (List Nat) × BridgeQ :=
  if useBuffer then
    match st.sideBuffer with
    | [] =>
        if st.restartInProgress then (none, st)
        else
          match st.mainQueue with
          | [] => (none, st)
          | c :: rest => (some (c :: rest), { st with mainQueue := [] })
    | c :: rest =>
        (some (c :: st.mainQueue),
          { st with sideBuffer := rest, mainQueue := [] })
  else
    match st.mainQueue with
    | [] => (none, st)
    | c :: rest => (some (c :: rest), { st with mainQueue := [] })

/-- C3 counterexample. The claim says a frame arriving while a restart is in
progress is routed to the side buffer rather than the old session queue;
in the code add_request unconditionally enqueues the frame to the old
session queue as well, so the claimed routing fails at any restarting
state. -/
theorem c3_counterexample :
    ¬ (∀ (st : BridgeQ) (f : Nat), st.restartInProgress = true →
        (addRequest st f).mainQueue = st.mainQueue) := by
  intro h
  have h7 := h ⟨[], [], true⟩ 7 rfl
  simp [addRequest] at h7

/-- C3 — restart frame routing, amended. While a restart is in progress,
add_request appends the frame to the side buffer and to the main queue (the
old session keeps receiving every frame); outside a restart only the main
queue grows. A buffer-mode generator batch emits one side-buffer frame
followed by the entire current main queue, emptying the main queue, rather
than draining the whole side buffer first. -/
theorem c3_restart_routing (st : BridgeQ) (f c : Nat) (side : List Nat) :
    (st.restartInProgress = true →
      (addRequest st f).sideBuffer = st.sideBuffer ++ [f] ∧
      (addRequest st f).mainQueue = st.mainQueue ++ [f]) ∧
    (st.restartInProgress = false →
      (addRequest st f).sideBuffer = st.sideBuffer ∧
      (addRequest st f).mainQueue = st.mainQueue ++ [f]) ∧
    (st.sideBuffer = c :: side →
      generatorBatch true st =
        (some (c :: st.mainQueue),
          { st with sideBuffer := side, mainQueue := [] })) := by
  refine ⟨?_, ?_, ?_⟩
  · intro h
    constructor <;> simp [addRequest, h]
  · intro h
    constructor <;> simp [addRequest, h]
  · intro h
    simp [generatorBatch, h]

/-- C3 witness: the routing theorem at a concrete restarting bridge. -/
theorem c3_restart_routing_witness :
    (addRequest ⟨[1], [2], true⟩ 7).sideBuffer = [2] ++ [7] ∧
    (addRequest ⟨[1], [2], true⟩ 7).mainQueue = [1] ++ [7] :=
  (c3_restart_routing ⟨[1], [2], true⟩ 7 0 []).1 rfl

/-! ## Conversation oracle degradation

Embedding of the retry structure of generate_response
(conversation_manager.py lines 162-219) and of generate_first_response
(lines 104-159). The Gemini chat is an external oracle: a function from the
attempt number to either a reply text or one of the error classes the
except clauses distinguish (ResourceExhausted with quota in the message,
ResourceExhausted with rate, other ResourceExhausted, the service-issue
classes ServiceUnavailable, ServerError and DeadlineExceeded, and any other
exception). The sleeps of the backoff are irrelevant to the degradation
property and are dropped; prompt construction in generate_first_response is
orthogonal to its error behaviour and is not modelled. The except ladder is
embedded as matching the exception classes it names (reading the handlers
as written; how the interpreter resolves those class names at runtime is
below this embedding). -/

/-- Error classes of the except ladder of generate_response. -/
inductive OracleErr where
  | quotaExhausted
  | rateLimited
  | resourceOther
  | serviceIssue
  | unexpected
deriving Repr, DecidableEq

/-- Fallback utterance of the quota branch (line 188). -/
def apologyQuota : String :=
  "I'm sorry, but I'm having trouble processing your request right now. Let me take your information and have someone call you back shortly."

/-- Fallback utterance of the other-resource branch (line 200). -/
def apologyRepeat : String :=
  "I'm having trouble understanding you right now. Could you please repeat that?"

/-- Fallback utterance of the service-issue branch (line 209). -/
def apologyService : String :=
  "I apologize, but our service is temporarily unavailable. Let me take your information and have someone call you back as soon as possible."

/-- Fallback utterance of the unexpected-error branch (line 216). -/
def apologyTech : String :=
  "I apologize for the inconvenience, but I'm experiencing a technical issue. Let me collect your contact information so we can follow up with you directly."

/-- Fallback utterance after the loop (line 219), reached when the last
attempt hits the rate-limited branch, which retries without returning. -/
def apologyFinal : String :=
  "I apologize, but I'm having technical difficulties at the moment. Please leave your name and number, and someone from our team will call you back promptly."

/-- The retry loop of generate_response (lines 176-219): up to max_retries
= 3 attempts; a success returns its text; quota, other-resource,
service-issue and unexpected errors return their fallback on the last
attempt (attempt index 2) and otherwise retry; a rate-limited error always
retries, so on the last attempt it falls out of the loop into the final
fallback. -/
def genRespLoop (oracle : Nat → Except OracleErr String) :
    Nat → Nat → String
  | _, 0 => apologyFinal
  | attempt, fuel + 1 =>
    match oracle attempt with
    | Except.ok t => t
    | Except.error e =>
      match e with
      | OracleErr.quotaExhausted =>
          if attempt = 2 then apologyQuota
          else genRespLoop oracle (attempt + 1) fuel
      | OracleErr.rateLimited => genRespLoop oracle (attempt + 1) fuel
      | OracleErr.resourceOther =>
          if attempt = 2 then apologyRepeat
          else genRespLoop oracle (attempt + 1) fuel
      | OracleErr.serviceIssue =>
          if attempt = 2 then apologyService
          else genRespLoop oracle (attempt + 1) fuel
      | OracleErr.unexpected =>
          if attempt = 2 then apologyTech
          else genRespLoop oracle (attempt + 1) fuel

/-- generate_response (lines 162-219): the retry loop from attempt 0 with
max_retries = 3. -/
def generate_response (oracle : Nat → Except OracleErr String) : String :=
  genRespLoop oracle 0 3

/-- generate_first_response (lines 104-159): a single oracle call with no
try block around it — whatever the provider raises propagates to the
caller. -/
def generate_first_response (oracle : Nat → Except OracleErr String) :
    Except OracleErr String :=
  oracle 0

/-- C6 counterexample. On the first-turn path a provider error is not
caught: generate_first_response propagates it and returns no apology
utterance, contradicting the claim that both oracle paths degrade to a
fixed apology. -/
theorem c6_counterexample :
    generate_first_response (fun _ => Except.error OracleErr.serviceIssue) =
      Except.error OracleErr.serviceIssue ∧
    ∀ s : String,
      generate_first_response (fun _ => Except.error OracleErr.serviceIssue) ≠
        Except.ok s := by
  refine ⟨rfl, fun s h => ?_⟩
  cases h

/-- C6 — oracle degradation, amended. The follow-up path generate_response
retries a bounded number of times (three attempts) and always returns a
string: the first successful attempt text, or one of the five fixed
apology utterances once every attempt fails; the first-turn path
generate_first_response performs its single oracle call with no handler,
so provider errors propagate to the caller instead of degrading to an
apology. -/
theorem c6_oracle_degradation (oracle : Nat → Except OracleErr String) :
    (∀ t, oracle 0 = Except.ok t → generate_response oracle = t) ∧
    ((∀ a t, oracle a ≠ Except.ok t) →
      generate_response oracle ∈
        [apologyQuota, apologyRepeat, apologyService, apologyTech,
          apologyFinal]) ∧
    (∀ e, generate_first_response (fun _ => Except.error e) =
      Except.error e) := by
  refine ⟨?_, ?_, fun e => rfl⟩
  · intro t h
    simp [generate_response, genRespLoop, h]
  · intro hfail
    have he0 : ∃ e, oracle 0 = Except.error e := by
      cases h : oracle 0 with
      | ok t => exact absurd h (hfail 0 t)
      | error e => exact ⟨e, rfl⟩
    have he1 : ∃ e, oracle 1 = Except.error e := by
      cases h : oracle 1 with
      | ok t => exact absurd h (hfail 1 t)
      | error e => exact ⟨e, rfl⟩
    have he2 : ∃ e, oracle 2 = Except.error e := by
      cases h : oracle 2 with
      | ok t => exact absurd h (hfail 2 t)
      | error e => exact ⟨e, rfl⟩
    rcases he0 with ⟨e0, h0⟩
    rcases he1 with ⟨e1, h1⟩
    rcases he2 with ⟨e2, h2⟩
    cases e0 <;> cases e1 <;> cases e2 <;>
      simp [generate_response, genRespLoop, h0, h1, h2]

/-! ## Finalized-transcription dispatch and duplicate suppression

Embedding of the mode dispatch of on_transcription_response
(websocket_handler.py lines 499-588) together with process_spelling_mode
(lines 393-496), for a final, nonempty transcription. The confirmation and
rejection classifiers of lines 275-391 (is_strict_confirmation and
is_strict_rejection, regex ladders over the text) are inputs isConf and
isRej of the step, since the dispatch structure treats them as opaque
booleans. Times are in milliseconds; the Python truthiness test on the
last-processed timestamp (None and 0.0 both falsy) is modelled by
timeTruthy. The outcome records what happens to the text: dispatched to
process_transcription now, suppressed by the one-second spelling guard,
deferred behind a re-armed timer of the given timeout, or merely buffered
for the silence-driven path. -/

/-- Python truthiness of the last-spelling-processed timestamp. -/
def timeTruthy : Option Nat → Bool
  | none => false
  | some t => decide (t ≠ 0)

/-- What a finalized transcription leads to. -/
inductive Outcome where
  | dispatched : List Char → Outcome
  | suppressed : Outcome
  | deferred : Nat → Outcome
  | buffered : Outcome
deriving Repr, DecidableEq

/-- The dispatch-relevant slice of SharedState: the mode flags, the
buffered transcription and last_spelling_processed_time. -/
structure TurnState where
  spellingMode : Bool
  spellingType : Option (List Char)
  assistanceMode : Bool
  bufferedText : List Char
  lastSpellingMs : Option Nat
deriving Repr, DecidableEq

/-- The email completion indicators of lines 432-438 and the last-chunk
test of lines 439-442: an indicator inside the last five words of the
lower-cased buffer. -/
def emailIndicators : List (List Char) :=
  [str "dot com", str "dot us", str "dot org", str "dot net", str "dot io",
   str "dot edu", str "dot gov", str "dot ca", str "dot co", str "dot uk",
   str "dot au", str "dot de", str "dot in",
   str ".com", str ".us", str ".org", str ".net", str ".io", str ".edu",
   str ".gov", str ".ca", str ".co", str ".uk", str ".au", str ".de",
   str ".in", str "gmail", str "yahoo", str "hotmail", str "outlook",
   str "aol", str "icloud", str "protonmail"]

/-- Domain-completion test for an email buffer (lines 439-442). -/
def emailCompletionHit (buf : List Char) : Bool :=
  let words := pyWords (pyLower buf)
  let lastChunk :=
    List.intercalate (str " ") (words.drop (words.length - 5))
  emailIndicators.any (fun ind => containsSub lastChunk ind)

/-- The delayed-dispatch timeout (lines 464-490): email 6.5 s; phone 0.8 s
once ten digits accumulated, 1.0 s after a rejection, otherwise 1.5 s; the
spelling type name (distinct from name_collection, which never defers)
1.5 s when the buffer looks about to spell and 0.8 s otherwise; any other
type 1.0 s. In milliseconds. -/
def spellingTimeout (stype : Option (List Char)) (buf : List Char)
    (isRej : Bool) : Nat :=
  if stype = some (str "email") then 6500
  else if stype = some (str "phone") then
    if 10 ≤ (buf.filter Char.isDigit).length then 800
    else if isRej then 1000
    else 1500
  else if stype = some (str "name") then
    if [str "that would be", str "that's", str "it's", str "spelled",
        str "spelt"].any (fun p => containsSub (pyLower buf) p) then 1500
    else 800
  else 1000

/-- process_spelling_mode (lines 393-496): the one-second guard against the
previous spelling dispatch fires first and skips any transcription,
identical or not; then the immediate cases (name_collection always,
confirmation which also exits the mode, rejection which stays in the mode,
email with a domain indicator); anything else cancels and re-arms the
delayed-dispatch timer. -/
def processSpellingMode (st : TurnState) (updatedBuffer : List Char)
    (now : Nat) (isConf isRej : Bool) : TurnState × Outcome :=
  if timeTruthy st.lastSpellingMs &&
      decide (now - st.lastSpellingMs.getD 0 < 1000) then
    (st, Outcome.suppressed)
  else if st.spellingType = some (str "name_collection") then
    ({ st with bufferedText := [], lastSpellingMs := some now },
      Outcome.dispatched updatedBuffer)
  else if isConf then
    ({ st with
        spellingMode := false
        spellingType := none
        bufferedText := []
        lastSpellingMs := some now },
      Outcome.dispatched updatedBuffer)
  else if isRej then
    ({ st with bufferedText := [], lastSpellingMs := some now },
      Outcome.dispatched updatedBuffer)
  else if st.spellingType = some (str "email") &&
      emailCompletionHit updatedBuffer then
    ({ st with bufferedText := [], lastSpellingMs := some now },
      Outcome.dispatched updatedBuffer)
  else
    (st, Outcome.deferred (spellingTimeout st.spellingType updatedBuffer isRej))

/-- The assistance completion phrases of lines 544-547. -/
def assistCompletionPhrases : List (List Char) :=
  [str "no that's it", str "that's it", str "that's all", str "no thanks",
   str "nothing else", str "no that's all", str "that's fine",
   str "no thank you", str "i'm good", str "that should do it",
   str "thanks", str "thank you"]

/-- on_transcription_response for a final nonempty transcription (lines
499-588): in spelling or assistance mode the text is appended to the
buffer; spelling mode then goes through process_spelling_mode; assistance
mode dispatches immediately on a completion phrase (or a bare no, thanks,
thank you, or single-word yeah) and otherwise leaves the buffer to the
silence-driven path; with neither mode set, the text dispatches directly
with no buffering, no delay and no duplicate check. -/
def onFinal (st : TurnState) (t : List Char) (now : Nat)
    (isConf isRej : Bool) : TurnState × Outcome :=
  if st.spellingMode || st.assistanceMode then
    let updatedBuffer :=
      if st.bufferedText = [] then t else st.bufferedText ++ str " " ++ t
    let st1 := { st with bufferedText := updatedBuffer }
    if st1.spellingMode then
      processSpellingMode st1 updatedBuffer now isConf isRej
    else
      let bl := pyLower updatedBuffer
      let isComplete :=
        assistCompletionPhrases.any (fun p => containsSub bl p) ||
        pyStrip bl = str "no" ||
        pyStrip bl = str "thanks" || pyStrip bl = str "thank you" ||
        (pyStrip bl = str "yeah" && (pyWords updatedBuffer).length = 1)
      if isComplete then
        ({ st1 with assistanceMode := false, bufferedText := [] },
          Outcome.dispatched updatedBuffer)
      else (st1, Outcome.buffered)
  else
    (st, Outcome.dispatched t)

/-- C7 counterexample. In Direct mode an identical finalized text arriving
400 ms after the previous dispatch is dispatched again, not suppressed:
the one-second duplicate guard exists only inside spelling mode, and the
direct path keeps no record of the previously dispatched text at all. -/
theorem c7_counterexample :
    (onFinal ⟨false, none, false, [], none⟩ (str "hello") 500
      false false).2 = Outcome.dispatched (str "hello") ∧
    (onFinal
      (onFinal ⟨false, none, false, [], none⟩ (str "hello") 500
        false false).1
      (str "hello") 900 false false).2 = Outcome.dispatched (str "hello") := by
  decide

/-- C7 — duplicate suppression, amended. The one-second guard lives only in
spelling mode, and it suppresses every finalized transcription arriving
within one second of the previous spelling dispatch, identical or not;
Direct mode always dispatches immediately (never suppresses), and
Assistance mode either dispatches a completion or buffers, never
suppresses. -/
theorem c7_duplicate_suppression (st : TurnState) (t : List Char)
    (now : Nat) (isConf isRej : Bool) :
    (st.spellingMode = true → timeTruthy st.lastSpellingMs = true →
      now - st.lastSpellingMs.getD 0 < 1000 →
      (onFinal st t now isConf isRej).2 = Outcome.suppressed) ∧
    (st.spellingMode = false → st.assistanceMode = false →
      (onFinal st t now isConf isRej).2 = Outcome.dispatched t) ∧
    (st.spellingMode = false → st.assistanceMode = true →
      (onFinal st t now isConf isRej).2 ≠ Outcome.suppressed) := by
  refine ⟨?_, ?_, ?_⟩
  · intro hs ht hn
    simp [onFinal, processSpellingMode, hs, ht, hn]
  · intro hs ha
    simp [onFinal, hs, ha]
  · intro hs ha
    simp only [onFinal, hs, ha]
    split_ifs <;> simp_all

/-- C7 witness: the suppression theorem applied in spelling mode 400 ms
after a previous spelling dispatch. -/
theorem c7_duplicate_suppression_witness :
    (onFinal ⟨true, some (str "name_collection"), false, [], some 500⟩
      (str "b o b") 900 false false).2 = Outcome.suppressed :=
  (c7_duplicate_suppression
      ⟨true, some (str "name_collection"), false, [], some 500⟩
      (str "b o b") 900 false false).1 rfl (by decide) (by decide)

/-! ## Timer cleanup at termination

Embedding of SpeechClientBridge.terminate (speech_processing.py lines
310-317) and the stop path of websocket_endpoint (websocket_handler.py
lines 632-641), which on a stop event or transport close calls
bridge.terminate() and nothing else. The two cancellable timers of a call
are the user_silence_timer owned by the bridge and the delayed-dispatch
pending_timer owned by SharedState (shared_state.py lines 195-212); the
model keeps one liveness bit for each. The queue sentinel that terminate
enqueues belongs to the generator model and is not part of this
projection. -/

/-- Liveness of the per-call timers plus the ended flags. -/
structure BridgeLife where
  ended : Bool
  callEnded : Bool
  silenceTimerActive : Bool
  pendingTimerActive : Bool
deriving Repr, DecidableEq

/-- terminate (lines 310-317): set ended, mark the call ended, cancel the
silence timer if present; the pending delayed-dispatch timer is not
touched, and the websocket stop path adds nothing beyond this call. -/
def terminate (st : BridgeLife) : BridgeLife :=
  { st with ended := true, callEnded := true, silenceTimerActive := false }

/-- C8 counterexample. Terminating a call whose delayed-dispatch timer is
armed leaves that timer alive: the claim that termination unconditionally
cancels both timers fails. -/
theorem c8_counterexample :
    (terminate ⟨false, false, true, true⟩).pendingTimerActive = true := by
  decide

/-- C8 — timer cleanup at termination, amended. Termination unconditionally
cancels the pending silence timer and marks the bridge and the call ended,
but it leaves the pending delayed-dispatch timer exactly as it was: that
timer is only ever cancelled or replaced by the dispatch paths while the
call is live, so a pending delayed dispatch survives termination. -/
theorem c8_terminate_cleanup (st : BridgeLife) :
    (terminate st).silenceTimerActive = false ∧
    (terminate st).ended = true ∧
    (terminate st).callEnded = true ∧
    (terminate st).pendingTimerActive = st.pendingTimerActive :=
  ⟨rfl, rfl, rfl, rfl⟩

end VoiceAssistant
